import Mathlib

/-!
# Birdwatch backend — verification of the specified behaviour

Shallow embedding of the pure computation kernels of the Birdwatch backend
(`backend/app/tools/weather.py`, `backend/app/tools/ebird.py`,
`backend/app/main.py`) together with proofs about them.

Conventions of the embedding:
* Python numbers that only ever feed comparisons and averages are modelled
  as rationals (`ℚ`); the integer score is modelled as `ℤ`.
* Python lists are Lean `List`s, Python strings are `String` or `List Char`
  (the latter where we reason character by character).
* A JSON object key that may be absent is an `Option`; `dict.get(k, d)`
  becomes `Option.getD`.
* An operation whose Python body is wrapped in `try/except` is modelled as a
  function of an `Except` value: the `.error` constructor carries the message
  of the exception raised by the outbound call or by response processing.
-/

namespace Birdwatch

/-! ## Weather tools (`backend/app/tools/weather.py`)

`get_birding_conditions` (lines 76–197): the upstream Open-Meteo payload is a
`hourly` map of parallel lists and a `daily` map with `sunrise` / `sunset`
lists.  The morning window is the Python slice `[6:10]`. -/

structure HourlyData where
  temperature_2m : List ℚ
  precipitation_probability : List ℚ
  wind_speed_10m : List ℚ
  cloud_cover : List ℚ

structure DailyData where
  sunrise : List String
  sunset : List String

/-- Python slice `xs[6:10]`. -/
def morningWindow (xs : List ℚ) : List ℚ := (xs.drop 6).take 4

/-- `sum(xs) / len(xs) if xs else dflt` (weather.py lines 117–120). -/
def avgOr (xs : List ℚ) (dflt : ℚ) : ℚ :=
  if xs = [] then dflt else xs.sum / xs.length

def morningAvgTemp (h : HourlyData) : ℚ := avgOr (morningWindow h.temperature_2m) 15
def morningAvgWind (h : HourlyData) : ℚ := avgOr (morningWindow h.wind_speed_10m) 10
def morningAvgPrecip (h : HourlyData) : ℚ := avgOr (morningWindow h.precipitation_probability) 0
def morningAvgClouds (h : HourlyData) : ℚ := avgOr (morningWindow h.cloud_cover) 50

/-- Wind penalty (weather.py lines 126–131). -/
def windPenalty (w : ℚ) : ℤ :=
  if 30 < w then 30 else if 20 < w then 15 else if 10 < w then 5 else 0

/-- Precipitation penalty (weather.py lines 134–139). -/
def precipPenalty (p : ℚ) : ℤ :=
  if 70 < p then 40 else if 40 < p then 20 else if 20 < p then 10 else 0

/-- Cloud-cover penalty (weather.py lines 142–145). -/
def cloudPenalty (c : ℚ) : ℤ :=
  if 90 < c then 10 else if c < 20 then 5 else 0

/-- Temperature penalty (weather.py lines 148–151). -/
def tempPenalty (t : ℚ) : ℤ :=
  if t < 0 ∨ 35 < t then 15 else if t < 5 ∨ 30 < t then 5 else 0

/-- `score = 100` minus the four penalties (weather.py lines 123–151). -/
def scoreOf (w p c t : ℚ) : ℤ :=
  100 - windPenalty w - precipPenalty p - cloudPenalty c - tempPenalty t

/-- Rating from the (pre-clamp) score (weather.py lines 167–174). -/
def ratingOf (s : ℤ) : String :=
  if 80 ≤ s then "Excellent" else if 60 ≤ s then "Good"
  else if 40 ≤ s then "Fair" else "Poor"

/-- Recommendation messages, in source order (weather.py lines 154–164). -/
def recommendationsOf (w p c t : ℚ) : List String :=
  (if 20 < w then ["High winds - look for sheltered areas and woods"] else []) ++
  (if 40 < p then ["Rain likely - bring waterproof gear, birds may be less active"] else []) ++
  (if c < 20 then ["Clear skies - best viewing around dawn/dusk to avoid glare"] else []) ++
  (if t < 10 then ["Cool morning - birds may be active feeding early"] else []) ++
  (if 25 < t then ["Warm day - focus on early morning and late afternoon"] else [])

/-- `recommendations if recommendations else ["Great conditions for birding!"]`
(weather.py line 194). -/
def finalRecommendations (rs : List String) : List String :=
  if rs = [] then ["Great conditions for birding!"] else rs

/-- `daily.get("sunrise", ["06:00"])[0] if daily.get("sunrise") else "06:00"`
(weather.py line 176): an absent key and an empty list both give the default. -/
def sunriseOf (l : List String) : String :=
  match l with
  | [] => "06:00"
  | x :: _ => x

/-- Same for sunset, default `"18:00"` (weather.py line 177). -/
def sunsetOf (l : List String) : String :=
  match l with
  | [] => "18:00"
  | x :: _ => x

/-- The payload of `get_birding_conditions` (weather.py lines 179–195).
The `conditions` sub-dict only re-displays the four averages rounded to one
decimal (float display rounding, not modelled); the averages themselves are
exposed via the `morningAvg*` functions above. -/
structure BirdingConditions where
  score : ℤ
  rating : String
  sunrise : String
  sunset : String
  best_times : List String
  recommendations : List String
deriving DecidableEq, Repr

/-- Success path of `WeatherTools.get_birding_conditions`
(weather.py lines 107–195). -/
def get_birding_conditions (h : HourlyData) (d : DailyData) : BirdingConditions :=
  let avg_temp := morningAvgTemp h
  let avg_wind := morningAvgWind h
  let avg_precip := morningAvgPrecip h
  let avg_clouds := morningAvgClouds h
  let score := scoreOf avg_wind avg_precip avg_clouds avg_temp
  let sunrise := sunriseOf d.sunrise
  let sunset := sunsetOf d.sunset
  { score := max 0 (min 100 score)
    rating := ratingOf score
    sunrise := sunrise
    sunset := sunset
    best_times := ["Dawn chorus: " ++ sunrise, "Golden hour: " ++ sunset]
    recommendations :=
      finalRecommendations (recommendationsOf avg_wind avg_precip avg_clouds avg_temp) }

/-! ### Concrete fixtures used by the counterexamples and witnesses -/

/-- Hourly payload with only 7 samples per series: the morning window
`[6:10]` holds a single sample for every metric. -/
def hourlyPartial : HourlyData :=
  { temperature_2m := [0, 0, 0, 0, 0, 0, 100]
    precipitation_probability := [0, 0, 0, 0, 0, 0, 0]
    wind_speed_10m := [0, 0, 0, 0, 0, 0, 35]
    cloud_cover := [0, 0, 0, 0, 0, 0, 50] }

/-- Hourly payload with only 6 samples per series: the morning window is
empty for every metric. -/
def hourlyShort : HourlyData :=
  { temperature_2m := [1, 1, 1, 1, 1, 1]
    precipitation_probability := [1, 1, 1, 1, 1, 1]
    wind_speed_10m := [1, 1, 1, 1, 1, 1]
    cloud_cover := [1, 1, 1, 1, 1, 1] }

/-- Hourly payload whose morning averages are wind 35, precip 80, clouds 95,
temp 40. -/
def hourlyHarsh : HourlyData :=
  { temperature_2m := [0, 0, 0, 0, 0, 0, 40, 40, 40, 40]
    precipitation_probability := [0, 0, 0, 0, 0, 0, 80, 80, 80, 80]
    wind_speed_10m := [0, 0, 0, 0, 0, 0, 35, 35, 35, 35]
    cloud_cover := [0, 0, 0, 0, 0, 0, 95, 95, 95, 95] }

/-- Daily payload with sunrise/sunset absent. -/
def dailyEmpty : DailyData := { sunrise := [], sunset := [] }

/-! ### Penalty bounds -/

lemma windPenalty_bounds (w : ℚ) : 0 ≤ windPenalty w ∧ windPenalty w ≤ 30 := by
  unfold windPenalty; split_ifs <;> norm_num

lemma precipPenalty_bounds (p : ℚ) : 0 ≤ precipPenalty p ∧ precipPenalty p ≤ 40 := by
  unfold precipPenalty; split_ifs <;> norm_num

lemma cloudPenalty_bounds (c : ℚ) : 0 ≤ cloudPenalty c ∧ cloudPenalty c ≤ 10 := by
  unfold cloudPenalty; split_ifs <;> norm_num

lemma tempPenalty_bounds (t : ℚ) : 0 ≤ tempPenalty t ∧ tempPenalty t ≤ 15 := by
  unfold tempPenalty; split_ifs <;> norm_num

lemma scoreOf_bounds (w p c t : ℚ) : 5 ≤ scoreOf w p c t ∧ scoreOf w p c t ≤ 100 := by
  have hw := windPenalty_bounds w
  have hp := precipPenalty_bounds p
  have hc := cloudPenalty_bounds c
  have ht := tempPenalty_bounds t
  unfold scoreOf
  omega

lemma ratingOf_iff (s : ℤ) :
    (ratingOf s = "Excellent" ↔ 80 ≤ s) ∧
    (ratingOf s = "Good" ↔ 60 ≤ s ∧ s < 80) ∧
    (ratingOf s = "Fair" ↔ 40 ≤ s ∧ s < 60) ∧
    (ratingOf s = "Poor" ↔ s < 40) := by
  unfold ratingOf
  split_ifs with h1 h2 h3 <;>
    refine ⟨?_, ?_, ?_, ?_⟩ <;> simp_all <;> omega

lemma get_birding_conditions_score (h : HourlyData) (d : DailyData) :
    (get_birding_conditions h d).score =
      scoreOf (morningAvgWind h) (morningAvgPrecip h) (morningAvgClouds h)
        (morningAvgTemp h) := by
  have hb := scoreOf_bounds (morningAvgWind h) (morningAvgPrecip h)
    (morningAvgClouds h) (morningAvgTemp h)
  simp only [get_birding_conditions]
  omega

lemma get_birding_conditions_rating (h : HourlyData) (d : DailyData) :
    (get_birding_conditions h d).rating =
      ratingOf (scoreOf (morningAvgWind h) (morningAvgPrecip h) (morningAvgClouds h)
        (morningAvgTemp h)) := rfl

/-- C1 — counterexample.  The claim says that whenever the morning window
`[6:10]` holds fewer than 4 samples, the score is computed from the defaults
(temp 15, wind 10, precip 0, clouds 50) for every metric.  With 7 hourly
samples the window holds a single sample for every metric (fewer than 4), yet
`get_birding_conditions` averages over that partial window (wind 35 →
penalty 30, temp 100 → penalty 15, score 55) instead of using the defaults
(which would give score 100). -/
theorem C1_partial_window_counterexample :
    (morningWindow hourlyPartial.temperature_2m).length < 4 ∧
    (morningWindow hourlyPartial.wind_speed_10m).length < 4 ∧
    (morningWindow hourlyPartial.precipitation_probability).length < 4 ∧
    (morningWindow hourlyPartial.cloud_cover).length < 4 ∧
    scoreOf 10 0 50 15 = 100 ∧
    (get_birding_conditions hourlyPartial dailyEmpty).score = 55 ∧
    (get_birding_conditions hourlyPartial dailyEmpty).score ≠ scoreOf 10 0 50 15 := by
  have h1 : morningAvgWind hourlyPartial = 35 := by
    simp [morningAvgWind, avgOr, morningWindow, hourlyPartial]
  have h2 : morningAvgPrecip hourlyPartial = 0 := by
    simp [morningAvgPrecip, avgOr, morningWindow, hourlyPartial]
  have h3 : morningAvgClouds hourlyPartial = 50 := by
    simp [morningAvgClouds, avgOr, morningWindow, hourlyPartial]
  have h4 : morningAvgTemp hourlyPartial = 100 := by
    simp [morningAvgTemp, avgOr, morningWindow, hourlyPartial]
  have hs := get_birding_conditions_score hourlyPartial dailyEmpty
  rw [h1, h2, h3, h4] at hs
  have hv : scoreOf 35 0 50 100 = 55 := by
    norm_num [scoreOf, windPenalty, precipPenalty, cloudPenalty, tempPenalty]
  have hd : scoreOf 10 0 50 15 = 100 := by
    norm_num [scoreOf, windPenalty, precipPenalty, cloudPenalty, tempPenalty]
  refine ⟨by simp [morningWindow, hourlyPartial], by simp [morningWindow, hourlyPartial],
    by simp [morningWindow, hourlyPartial], by simp [morningWindow, hourlyPartial],
    hd, by rw [hs, hv], ?_⟩
  rw [hs, hv, hd]
  norm_num

/-- C1 — amended.  For each metric separately, the default (wind 10, precip 0,
clouds 50, temp 15) is used only when the morning window `[6:10]` for that
metric is empty; when the window holds 1–3 (or 4) samples, the average over
the (possibly partial) window is used.  The score is computed from those four
values and then clamped to [0, 100]. -/
theorem C1_amended_defaults_only_when_window_empty (h : HourlyData) (d : DailyData) :
    (morningWindow h.wind_speed_10m = [] → morningAvgWind h = 10) ∧
    (morningWindow h.wind_speed_10m ≠ [] →
      morningAvgWind h =
        (morningWindow h.wind_speed_10m).sum / (morningWindow h.wind_speed_10m).length) ∧
    (morningWindow h.precipitation_probability = [] → morningAvgPrecip h = 0) ∧
    (morningWindow h.precipitation_probability ≠ [] →
      morningAvgPrecip h =
        (morningWindow h.precipitation_probability).sum /
          (morningWindow h.precipitation_probability).length) ∧
    (morningWindow h.cloud_cover = [] → morningAvgClouds h = 50) ∧
    (morningWindow h.cloud_cover ≠ [] →
      morningAvgClouds h =
        (morningWindow h.cloud_cover).sum / (morningWindow h.cloud_cover).length) ∧
    (morningWindow h.temperature_2m = [] → morningAvgTemp h = 15) ∧
    (morningWindow h.temperature_2m ≠ [] →
      morningAvgTemp h =
        (morningWindow h.temperature_2m).sum / (morningWindow h.temperature_2m).length) ∧
    (get_birding_conditions h d).score =
      max 0 (min 100 (scoreOf (morningAvgWind h) (morningAvgPrecip h)
        (morningAvgClouds h) (morningAvgTemp h))) := by
  refine ⟨fun he => ?_, fun hne => ?_, fun he => ?_, fun hne => ?_,
    fun he => ?_, fun hne => ?_, fun he => ?_, fun hne => ?_, rfl⟩ <;>
    simp_all [morningAvgWind, morningAvgPrecip, morningAvgClouds, morningAvgTemp, avgOr]

/-- C1 amended — witness: with 7 hourly samples the wind window is the
singleton [35] and the average 35 is used; with 6 samples the window is empty
and the default 10 is used. -/
theorem C1_amended_witness :
    morningAvgWind hourlyPartial = 35 ∧ morningAvgWind hourlyShort = 10 := by
  constructor
  · have h := (C1_amended_defaults_only_when_window_empty hourlyPartial dailyEmpty).2.1
      (by simp [morningWindow, hourlyPartial])
    rw [h]
    simp [morningWindow, hourlyPartial]
  · exact (C1_amended_defaults_only_when_window_empty hourlyShort dailyEmpty).1
      (by simp [morningWindow, hourlyShort])

/-- C2 — confirmed.  For every hourly/daily input the returned score lies in
[0, 100], and the rating boundaries are exact: "Excellent" iff score ≥ 80,
"Good" iff 60 ≤ score < 80, "Fair" iff 40 ≤ score < 60, "Poor" iff
score < 40; in particular `ratingOf` maps 80 ↦ Excellent, 79 ↦ Good,
60 ↦ Good, 59 ↦ Fair, 40 ↦ Fair, 39 ↦ Poor. -/
theorem C2_score_range_and_rating_boundaries (h : HourlyData) (d : DailyData) :
    0 ≤ (get_birding_conditions h d).score ∧
    (get_birding_conditions h d).score ≤ 100 ∧
    ((get_birding_conditions h d).rating = "Excellent" ↔
      80 ≤ (get_birding_conditions h d).score) ∧
    ((get_birding_conditions h d).rating = "Good" ↔
      60 ≤ (get_birding_conditions h d).score ∧ (get_birding_conditions h d).score < 80) ∧
    ((get_birding_conditions h d).rating = "Fair" ↔
      40 ≤ (get_birding_conditions h d).score ∧ (get_birding_conditions h d).score < 60) ∧
    ((get_birding_conditions h d).rating = "Poor" ↔
      (get_birding_conditions h d).score < 40) ∧
    ratingOf 80 = "Excellent" ∧ ratingOf 79 = "Good" ∧ ratingOf 60 = "Good" ∧
    ratingOf 59 = "Fair" ∧ ratingOf 40 = "Fair" ∧ ratingOf 39 = "Poor" := by
  have hs := get_birding_conditions_score h d
  have hr := get_birding_conditions_rating h d
  have hb := scoreOf_bounds (morningAvgWind h) (morningAvgPrecip h)
    (morningAvgClouds h) (morningAvgTemp h)
  have hiff := ratingOf_iff (scoreOf (morningAvgWind h) (morningAvgPrecip h)
    (morningAvgClouds h) (morningAvgTemp h))
  rw [hs, hr]
  refine ⟨by omega, by omega, hiff.1, hiff.2.1, hiff.2.2.1, hiff.2.2.2,
    ?_, ?_, ?_, ?_, ?_, ?_⟩ <;> simp [ratingOf]

/-- C8 — confirmed.  When the morning averages are wind 35, precip 80,
clouds 95, temp 40, the penalties are 30, 40, 10, 15, the score is 5 with
rating "Poor", the recommendations are exactly the high-wind, rain-likely and
warm-day messages, and sunrise/sunset default to "06:00"/"18:00" when absent
from the daily data. -/
theorem C8_harsh_morning_poor_rating (h : HourlyData) (d : DailyData)
    (hw : morningAvgWind h = 35) (hp : morningAvgPrecip h = 80)
    (hc : morningAvgClouds h = 95) (ht : morningAvgTemp h = 40)
    (hsr : d.sunrise = []) (hss : d.sunset = []) :
    windPenalty 35 = 30 ∧ precipPenalty 80 = 40 ∧ cloudPenalty 95 = 10 ∧
    tempPenalty 40 = 15 ∧
    (get_birding_conditions h d).score = 5 ∧
    (get_birding_conditions h d).rating = "Poor" ∧
    (get_birding_conditions h d).recommendations =
      ["High winds - look for sheltered areas and woods",
       "Rain likely - bring waterproof gear, birds may be less active",
       "Warm day - focus on early morning and late afternoon"] ∧
    (get_birding_conditions h d).sunrise = "06:00" ∧
    (get_birding_conditions h d).sunset = "18:00" := by
  have hs := get_birding_conditions_score h d
  have hr := get_birding_conditions_rating h d
  rw [hw, hp, hc, ht] at hs hr
  have hv : scoreOf 35 80 95 40 = 5 := by
    norm_num [scoreOf, windPenalty, precipPenalty, cloudPenalty, tempPenalty]
  refine ⟨by norm_num [windPenalty], by norm_num [precipPenalty], by norm_num [cloudPenalty],
    by norm_num [tempPenalty], by rw [hs, hv], by rw [hr, hv]; norm_num [ratingOf], ?_, ?_, ?_⟩
  · show finalRecommendations (recommendationsOf (morningAvgWind h) (morningAvgPrecip h)
      (morningAvgClouds h) (morningAvgTemp h)) = _
    rw [hw, hp, hc, ht]
    norm_num [recommendationsOf, finalRecommendations]
    simp
  · show sunriseOf d.sunrise = _
    rw [hsr]
    rfl
  · show sunsetOf d.sunset = _
    rw [hss]
    rfl

/-- C8 — witness at a concrete hourly payload whose morning averages are
wind 35, precip 80, clouds 95, temp 40 and an empty daily payload. -/
theorem C8_witness :
    (get_birding_conditions hourlyHarsh dailyEmpty).score = 5 ∧
    (get_birding_conditions hourlyHarsh dailyEmpty).rating = "Poor" := by
  have h := C8_harsh_morning_poor_rating hourlyHarsh dailyEmpty
    (by simp [morningAvgWind, avgOr, morningWindow, hourlyHarsh]; norm_num)
    (by simp [morningAvgPrecip, avgOr, morningWindow, hourlyHarsh]; norm_num)
    (by simp [morningAvgClouds, avgOr, morningWindow, hourlyHarsh]; norm_num)
    (by simp [morningAvgTemp, avgOr, morningWindow, hourlyHarsh]; norm_num)
    rfl rfl
  exact ⟨h.2.2.2.2.1, h.2.2.2.2.2.1⟩

/-- C9 — confirmed (implicit claim).  Each penalty is bounded by its top tier
(30/40/10/15), the total penalty is at most 95, so for every input the
pre-clamp score lies in [5, 100]; hence the returned score lies in [5, 100]
and the lower clamp to 0 never changes the value. -/
theorem C9_total_penalty_at_most_95 (w p c t : ℚ) (h : HourlyData) (d : DailyData) :
    windPenalty w ≤ 30 ∧ precipPenalty p ≤ 40 ∧ cloudPenalty c ≤ 10 ∧
    tempPenalty t ≤ 15 ∧
    windPenalty w + precipPenalty p + cloudPenalty c + tempPenalty t ≤ 95 ∧
    5 ≤ scoreOf w p c t ∧ scoreOf w p c t ≤ 100 ∧
    max 0 (min 100 (scoreOf w p c t)) = scoreOf w p c t ∧
    5 ≤ (get_birding_conditions h d).score ∧
    (get_birding_conditions h d).score ≤ 100 ∧
    (get_birding_conditions h d).score =
      scoreOf (morningAvgWind h) (morningAvgPrecip h) (morningAvgClouds h)
        (morningAvgTemp h) := by
  have hw := windPenalty_bounds w
  have hp := precipPenalty_bounds p
  have hc := cloudPenalty_bounds c
  have ht := tempPenalty_bounds t
  have hb := scoreOf_bounds w p c t
  have hb2 := scoreOf_bounds (morningAvgWind h) (morningAvgPrecip h)
    (morningAvgClouds h) (morningAvgTemp h)
  have hs := get_birding_conditions_score h d
  obtain ⟨hb1, hb2⟩ := hb
  refine ⟨hw.2, hp.2, hc.2, ht.2, by omega, hb1, hb2, by omega, by omega, by omega, hs⟩

/-! ## eBird tools (`backend/app/tools/ebird.py`)

Every operation's Python body is a `try/except Exception` around an outbound
HTTP call followed by response formatting.  The embedding separates:
* the outbound request parameters actually sent (the `params={...}` dicts),
* the formatting of a successfully parsed response,
* the `try/except` boundary, as a function of an `Except` value whose
  `.error` case carries the exception message. -/

/-- Result of a tool call: either the formatted payload, or the error string
built by the `except` clause. -/
inductive ToolResult (α : Type) where
  | ok (val : α)
  | err (msg : List Char)
deriving DecidableEq

/-! ### Outbound request parameters (claim C5)

Only the parameters that the Python code computes (as opposed to passing
through verbatim) matter here: `dist` is sent as `min(distance_km, 50)` and
`back` as `min(back_days, 30)`. -/

/-- Params of `GET /ref/hotspot/geo` (ebird.py lines 141–146). -/
structure HotspotGeoRequest where
  lat : ℚ
  lng : ℚ
  dist : ℤ
deriving DecidableEq

def hotspotGeoRequest (lat lng : ℚ) (distance_km : ℤ) : HotspotGeoRequest :=
  { lat := lat, lng := lng, dist := min distance_km 50 }

/-- Params of `GET /data/obs/geo/recent/notable` (ebird.py lines 348–353). -/
structure NotableGeoRequest where
  lat : ℚ
  lng : ℚ
  dist : ℤ
  back : ℤ
deriving DecidableEq

def notableGeoRequest (lat lng : ℚ) (distance_km back_days : ℤ) : NotableGeoRequest :=
  { lat := lat, lng := lng, dist := min distance_km 50, back := min back_days 30 }

/-- Params of the region observation endpoints (ebird.py lines 50, 94, 192). -/
structure RegionObsRequest where
  back : ℤ
  maxResults : ℤ
deriving DecidableEq

def recentObsRequest (back_days max_results : ℤ) : RegionObsRequest :=
  { back := min back_days 30, maxResults := max_results }

def notableObsRequest (back_days max_results : ℤ) : RegionObsRequest :=
  { back := min back_days 30, maxResults := max_results }

def speciesObsRequest (back_days max_results : ℤ) : RegionObsRequest :=
  { back := min back_days 30, maxResults := max_results }

/-! ### Upstream payloads and their formatting -/

/-- One eBird observation object; each key may be absent.  `howMany` is an
integer when present; Python substitutes the string `"X"` when it is absent
(modelled by `none`). -/
structure EBirdObs where
  comName : Option String
  sciName : Option String
  locName : Option String
  obsDt : Option String
  howMany : Option ℤ
  lat : Option ℚ
  lng : Option ℚ
  obsReviewed : Option Bool
  obsValid : Option Bool
deriving DecidableEq

/-- Record built by `get_recent_observations` (ebird.py lines 57–66). -/
structure ObsRecord where
  species : String
  scientific_name : String
  location : String
  date : String
  count : Option ℤ
  lat : Option ℚ
  lng : Option ℚ
deriving DecidableEq

def formatObs (o : EBirdObs) : ObsRecord :=
  { species := o.comName.getD "Unknown"
    scientific_name := o.sciName.getD ""
    location := o.locName.getD "Unknown location"
    date := o.obsDt.getD ""
    count := o.howMany
    lat := o.lat
    lng := o.lng }

/-- `EBirdTools.get_recent_observations` (ebird.py lines 28–70). -/
def get_recent_observations (resp : Except (List Char) (List EBirdObs)) :
    ToolResult (List ObsRecord) :=
  match resp with
  | .error e => .err ("Error fetching observations: ".data ++ e)
  | .ok obs => .ok (obs.map formatObs)

/-- Record built by `get_notable_observations` (ebird.py lines 100–111). -/
structure NotableObsRecord where
  species : String
  scientific_name : String
  location : String
  date : String
  count : Option ℤ
  lat : Option ℚ
  lng : Option ℚ
  is_reviewed : Bool
  is_valid : Bool
deriving DecidableEq

def formatNotableObs (o : EBirdObs) : NotableObsRecord :=
  { species := o.comName.getD "Unknown"
    scientific_name := o.sciName.getD ""
    location := o.locName.getD "Unknown location"
    date := o.obsDt.getD ""
    count := o.howMany
    lat := o.lat
    lng := o.lng
    is_reviewed := o.obsReviewed.getD false
    is_valid := o.obsValid.getD false }

/-- `EBirdTools.get_notable_observations` (ebird.py lines 72–115). -/
def get_notable_observations (resp : Except (List Char) (List EBirdObs)) :
    ToolResult (List NotableObsRecord) :=
  match resp with
  | .error e => .err ("Error fetching notable observations: ".data ++ e)
  | .ok obs => .ok (obs.map formatNotableObs)

/-- One eBird hotspot object (ebird.py lines 152–162). -/
structure EBirdHotspot where
  locName : Option String
  locId : Option String
  lat : Option ℚ
  lng : Option ℚ
  countryCode : Option String
  subnational1Code : Option String
  numSpeciesAllTime : Option ℤ
  latestObsDt : Option String
deriving DecidableEq

structure HotspotRecord where
  name : String
  hotspot_id : String
  lat : Option ℚ
  lng : Option ℚ
  country : String
  region : String
  species_count : ℤ
  latest_observation : String
deriving DecidableEq

def formatHotspot (hs : EBirdHotspot) : HotspotRecord :=
  { name := hs.locName.getD "Unknown"
    hotspot_id := hs.locId.getD ""
    lat := hs.lat
    lng := hs.lng
    country := hs.countryCode.getD ""
    region := hs.subnational1Code.getD ""
    species_count := hs.numSpeciesAllTime.getD 0
    latest_observation := hs.latestObsDt.getD "" }

/-- `EBirdTools.get_nearby_hotspots` (ebird.py lines 117–166): the parsed
response is truncated with `[:max_results]` and then formatted. -/
def get_nearby_hotspots (max_results : ℕ)
    (resp : Except (List Char) (List EBirdHotspot)) : ToolResult (List HotspotRecord) :=
  match resp with
  | .error e => .err ("Error fetching hotspots: ".data ++ e)
  | .ok hs => .ok ((hs.take max_results).map formatHotspot)

/-- Record built by `get_species_observations` (ebird.py lines 198–206):
same as `ObsRecord` but without `scientific_name`. -/
structure SpeciesObsRecord where
  species : String
  location : String
  date : String
  count : Option ℤ
  lat : Option ℚ
  lng : Option ℚ
deriving DecidableEq

def formatSpeciesObs (o : EBirdObs) : SpeciesObsRecord :=
  { species := o.comName.getD "Unknown"
    location := o.locName.getD "Unknown location"
    date := o.obsDt.getD ""
    count := o.howMany
    lat := o.lat
    lng := o.lng }

/-- `EBirdTools.get_species_observations` (ebird.py lines 168–210). -/
def get_species_observations (resp : Except (List Char) (List EBirdObs)) :
    ToolResult (List SpeciesObsRecord) :=
  match resp with
  | .error e => .err ("Error fetching species observations: ".data ++ e)
  | .ok obs => .ok (obs.map formatSpeciesObs)

/-- Region-info response: `result` and a `bounds` sub-object (the default for
an absent `bounds` key is the empty dict `{}`, modelled by an all-`none`
bounds record). -/
structure RegionBounds where
  minX : Option ℚ
  maxX : Option ℚ
  minY : Option ℚ
  maxY : Option ℚ
deriving DecidableEq

structure RegionInfoResp where
  result : Option String
  bounds : Option RegionBounds
deriving DecidableEq

structure RegionInfoRecord where
  name : String
  region_code : String
  bounds : RegionBounds
deriving DecidableEq

/-- `EBirdTools.get_region_info` (ebird.py lines 212–237). -/
def get_region_info (region_code : String)
    (resp : Except (List Char) RegionInfoResp) : ToolResult RegionInfoRecord :=
  match resp with
  | .error e => .err ("Error fetching region info: ".data ++ e)
  | .ok info =>
      .ok { name := info.result.getD "Unknown"
            region_code := region_code
            bounds := info.bounds.getD ⟨none, none, none, none⟩ }

structure HotspotInfoResp where
  name : Option String
  latitude : Option ℚ
  longitude : Option ℚ
  countryCode : Option String
  subnational1Code : Option String
  numSpeciesAllTime : Option ℤ
deriving DecidableEq

structure HotspotInfoRecord where
  name : String
  hotspot_id : String
  lat : Option ℚ
  lng : Option ℚ
  country : String
  region : String
  species_count : ℤ
deriving DecidableEq

/-- `EBirdTools.get_hotspot_info` (ebird.py lines 239–268). -/
def get_hotspot_info (hotspot_id : String)
    (resp : Except (List Char) HotspotInfoResp) : ToolResult HotspotInfoRecord :=
  match resp with
  | .error e => .err ("Error fetching hotspot info: ".data ++ e)
  | .ok info =>
      .ok { name := info.name.getD "Unknown"
            hotspot_id := hotspot_id
            lat := info.latitude
            lng := info.longitude
            country := info.countryCode.getD ""
            region := info.subnational1Code.getD ""
            species_count := info.numSpeciesAllTime.getD 0 }

/-! ### Taxonomy (claim C7) -/

/-- One entry of the eBird taxonomy response (ebird.py lines 302–318). -/
structure TaxEntry where
  comName : Option String
  sciName : Option String
  speciesCode : Option String
  category : Option String
  taxonOrder : Option String
  familyComName : Option String
  familySciName : Option String
deriving DecidableEq

structure TaxRecord where
  common_name : String
  scientific_name : String
  species_code : String
  category : String
  taxonOrder : String
  family : String
  family_scientific : String
deriving DecidableEq

def formatTax (t : TaxEntry) : TaxRecord :=
  { common_name := t.comName.getD ""
    scientific_name := t.sciName.getD ""
    species_code := t.speciesCode.getD ""
    category := t.category.getD ""
    taxonOrder := t.taxonOrder.getD ""
    family := t.familyComName.getD ""
    family_scientific := t.familySciName.getD "" }

/-- Python `str.lower()` on one character (ASCII range, which covers the
taxonomy names concerned). -/
def lowerChar (c : Char) : Char :=
  if 'A' ≤ c ∧ c ≤ 'Z' then Char.ofNat (c.toNat + 32) else c

/-- Python `str.lower()`, as a character list. -/
def lowerStr (s : String) : List Char := s.data.map lowerChar

/-- `search_lower in t.get("comName","").lower() or search_lower in
t.get("sciName","").lower()` (ebird.py lines 303–305): case-insensitive
substring match against either name. -/
def nameMatches (q : String) (t : TaxEntry) : Prop :=
  lowerStr q <:+: lowerStr (t.comName.getD "") ∨
  lowerStr q <:+: lowerStr (t.sciName.getD "")

instance (q : String) (t : TaxEntry) : Decidable (nameMatches q t) := by
  unfold nameMatches; infer_instance

/-- The local query filter of `get_taxonomy` (ebird.py lines 300–306):
applied only when `search_query` is truthy (present and non-empty), and
truncated to 20 matches. -/
def applyQuery (q : Option String) (tax : List TaxEntry) : List TaxEntry :=
  match q with
  | none => tax
  | some s => if s = "" then tax else (tax.filter (fun t => decide (nameMatches s t))).take 20

/-- Success path of `EBirdTools.get_taxonomy` (ebird.py lines 285–320):
query filter (capped at 20), then the general 50-item cap, then formatting. -/
def taxonomyProcess (q : Option String) (tax : List TaxEntry) : List TaxRecord :=
  ((applyQuery q tax).take 50).map formatTax

/-- `EBirdTools.get_taxonomy` (ebird.py lines 270–322). -/
def get_taxonomy (q : Option String)
    (resp : Except (List Char) (List TaxEntry)) : ToolResult (List TaxRecord) :=
  match resp with
  | .error e => .err ("Error fetching taxonomy: ".data ++ e)
  | .ok tax => .ok (taxonomyProcess q tax)

/-! ### Rare birds nearby (claim C4)

ebird.py lines 358–376: each observation is annotated with
`distance_km = round(((obs.get("lat", lat) - lat)**2 +
(obs.get("lng", lng) - lng)**2)**0.5 * 111, 1)` — a float square root and a
float display rounding.  The numeric value of that expression is modelled by
an arbitrary function `dk`; the properties proved below (sortedness by the
annotation, stability, every record carrying a distance) hold for every
`dk`, in particular for the actual float computation.  The list is then
sorted by `results.sort(key=lambda x: x.get("distance_km", 999))`; Python's
`list.sort` is a stable merge sort, modelled by `List.mergeSort`. -/

structure RareBirdRecord where
  species : String
  scientific_name : String
  location : String
  date : String
  count : Option ℤ
  lat : Option ℚ
  lng : Option ℚ
  distance_km : Option ℚ
deriving DecidableEq

def annotateRare (dk : EBirdObs → ℚ) (o : EBirdObs) : RareBirdRecord :=
  { species := o.comName.getD "Unknown"
    scientific_name := o.sciName.getD ""
    location := o.locName.getD "Unknown location"
    date := o.obsDt.getD ""
    count := o.howMany
    lat := o.lat
    lng := o.lng
    distance_km := some (dk o) }

/-- `lambda x: x.get("distance_km", 999)` (ebird.py line 376). -/
def rareKey (r : RareBirdRecord) : ℚ := r.distance_km.getD 999

def rareLe (a b : RareBirdRecord) : Bool := decide (rareKey a ≤ rareKey b)

/-- Annotate then stable-sort by the distance key (ebird.py lines 358–376). -/
def rareBirdsProcess (dk : EBirdObs → ℚ) (obs : List EBirdObs) : List RareBirdRecord :=
  (obs.map (annotateRare dk)).mergeSort rareLe

/-- `EBirdTools.get_rare_birds_nearby` (ebird.py lines 324–380). -/
def get_rare_birds_nearby (dk : EBirdObs → ℚ)
    (resp : Except (List Char) (List EBirdObs)) : ToolResult (List RareBirdRecord) :=
  match resp with
  | .error e => .err ("Error fetching rare birds: ".data ++ e)
  | .ok obs => .ok (rareBirdsProcess dk obs)

/-! ### Weather tool boundaries (for claim C6)

`get_weather_forecast` (weather.py lines 15–74): the only step of response
processing that can raise is indexing `hourly.get(key, [default])[0]` when the
key is present but its list is empty (`IndexError: list index out of range`);
every other access is guarded. -/

structure WForecastHourly where
  temperature_2m : Option (List ℚ)
  precipitation_probability : Option (List ℚ)
  wind_speed_10m : Option (List ℚ)
  cloud_cover : Option (List ℚ)
  visibility : Option (List ℚ)
deriving DecidableEq

structure WForecastDaily where
  time : Option (List String)
  sunrise : Option (List String)
  sunset : Option (List String)
  precipitation_sum : Option (List ℚ)
  wind_speed_10m_max : Option (List ℚ)
deriving DecidableEq

/-- `hourly.get(key, [dflt])[0]`: absent key gives the default's head; a
present empty list raises `IndexError`. -/
def headOrElse (l : Option (List ℚ)) (dflt : Option ℚ) : Except (List Char) (Option ℚ) :=
  match l with
  | none => .ok dflt
  | some [] => .error "list index out of range".data
  | some (x :: _) => .ok (some x)

structure CurrentConditions where
  temperature_c : Option ℚ
  precipitation_probability : Option ℚ
  wind_speed_kmh : Option ℚ
  cloud_cover_percent : Option ℚ
  visibility_m : Option ℚ
deriving DecidableEq

structure ForecastDay where
  date : Option String
  sunrise : Option String
  sunset : Option String
  precipitation_mm : ℚ
  max_wind_kmh : ℚ
deriving DecidableEq

/-- One day of the 7-day forecast (weather.py lines 60–66): every access is
guarded by `if i < len(...)`. -/
def forecastDay (d : WForecastDaily) (i : ℕ) : ForecastDay :=
  { date := (d.time.getD []).get? i
    sunrise := (d.sunrise.getD []).get? i
    sunset := (d.sunset.getD []).get? i
    precipitation_mm := ((d.precipitation_sum.getD []).get? i).getD 0
    max_wind_kmh := ((d.wind_speed_10m_max.getD []).get? i).getD 0 }

structure ForecastOut where
  current : CurrentConditions
  forecast : List ForecastDay
  timezone : String
deriving DecidableEq

/-- Response processing of `get_weather_forecast` (weather.py lines 46–72);
the `Except` carries the `IndexError` message when it is raised. -/
def forecastProcess (h : WForecastHourly) (d : WForecastDaily) (tz : Option String) :
    Except (List Char) ForecastOut := do
  let t ← headOrElse h.temperature_2m none
  let p ← headOrElse h.precipitation_probability (some 0)
  let w ← headOrElse h.wind_speed_10m (some 0)
  let c ← headOrElse h.cloud_cover (some 0)
  let v ← headOrElse h.visibility (some 0)
  pure { current := { temperature_c := t, precipitation_probability := p,
                      wind_speed_kmh := w, cloud_cover_percent := c, visibility_m := v }
         forecast := (List.range (min 7 (d.time.getD []).length)).map (forecastDay d)
         timezone := tz.getD "Unknown" }

/-- `WeatherTools.get_weather_forecast` (weather.py lines 15–74): the
`try/except` catches both the outbound failure and any processing
`IndexError`. -/
def get_weather_forecast
    (resp : Except (List Char) (WForecastHourly × WForecastDaily × Option String)) :
    ToolResult ForecastOut :=
  match resp.bind (fun r => forecastProcess r.1 r.2.1 r.2.2) with
  | .error e => .err ("Error fetching weather: ".data ++ e)
  | .ok out => .ok out

/-- `WeatherTools.get_birding_conditions` at its `try/except` boundary
(weather.py lines 91–197). -/
def get_birding_conditions_tool
    (resp : Except (List Char) (HourlyData × DailyData)) : ToolResult BirdingConditions :=
  match resp with
  | .error e => .err ("Error analyzing birding conditions: ".data ++ e)
  | .ok r => .ok (get_birding_conditions r.1 r.2)

/-! ### Fixtures for the eBird claims -/

/-- Notable observation 5 degrees of latitude away. -/
def rareObsFar : EBirdObs :=
  { comName := some "Far Bird", sciName := none, locName := none, obsDt := some "2024-01-01"
    howMany := none, lat := some 5, lng := some 0, obsReviewed := none, obsValid := none }

/-- Notable observation 1 degree away, reported first. -/
def rareObsNear1 : EBirdObs :=
  { comName := some "Near Bird 1", sciName := none, locName := none, obsDt := some "2024-01-02"
    howMany := none, lat := some 1, lng := some 0, obsReviewed := none, obsValid := none }

/-- Notable observation 1 degree away, reported second. -/
def rareObsNear2 : EBirdObs :=
  { comName := some "Near Bird 2", sciName := none, locName := none, obsDt := some "2024-01-03"
    howMany := none, lat := some 1, lng := some 0, obsReviewed := none, obsValid := none }

/-- A concrete distance annotation: the latitude offset itself. -/
def dkLat (o : EBirdObs) : ℚ := o.lat.getD 0

def taxCardinal : TaxEntry :=
  { comName := some "Northern Cardinal", sciName := some "Cardinalis cardinalis"
    speciesCode := some "norcar", category := some "species", taxonOrder := none
    familyComName := some "Cardinals and Allies", familySciName := some "Cardinalidae" }

def taxBlueJay : TaxEntry :=
  { comName := some "Blue Jay", sciName := some "Cyanocitta cristata"
    speciesCode := some "blujay", category := some "species", taxonOrder := none
    familyComName := some "Crows, Jays, and Magpies", familySciName := some "Corvidae" }

/-! ### Claims C4, C5, C7 -/

/-- C4 — confirmed.  For every upstream notable-observation list and every
numeric distance annotation `dk`, the list returned by
`get_rare_birds_nearby` is the annotated input sorted non-decreasing by the
`distance_km` annotation; the sort is stable (any pair in upstream order with
non-decreasing keys — ties in particular — stays in that order), every
returned record carries a distance annotation, and the sort key of a record
without one would be 999. -/
theorem C4_rare_birds_sorted_stable (dk : EBirdObs → ℚ) (obs : List EBirdObs) :
    List.Pairwise (fun a b => rareKey a ≤ rareKey b) (rareBirdsProcess dk obs) ∧
    (rareBirdsProcess dk obs).Perm (obs.map (annotateRare dk)) ∧
    (∀ a b : RareBirdRecord, List.Sublist [a, b] (obs.map (annotateRare dk)) →
      rareKey a ≤ rareKey b → List.Sublist [a, b] (rareBirdsProcess dk obs)) ∧
    (∀ r ∈ rareBirdsProcess dk obs, r.distance_km.isSome) ∧
    (∀ r : RareBirdRecord, r.distance_km = none → rareKey r = 999) := by
  have htrans : ∀ (a b c : RareBirdRecord), rareLe a b → rareLe b c → rareLe a c := by
    intro a b c hab hbc
    simp only [rareLe, decide_eq_true_eq] at *
    exact le_trans hab hbc
  have htotal : ∀ (a b : RareBirdRecord), rareLe a b || rareLe b a := by
    intro a b
    simp only [rareLe, Bool.or_eq_true, decide_eq_true_eq]
    exact le_total _ _
  refine ⟨?_, List.mergeSort_perm _ _, ?_, ?_, fun r hr => by simp [rareKey, hr]⟩
  · have h := List.sorted_mergeSort htrans htotal (obs.map (annotateRare dk))
    exact h.imp (fun {a b} hab => by simpa [rareLe, decide_eq_true_eq] using hab)
  · intro a b hsub hkey
    exact List.pair_sublist_mergeSort htrans htotal (by simp [rareLe, hkey]) hsub
  · intro r hr
    rw [rareBirdsProcess, List.mem_mergeSort] at hr
    obtain ⟨o, _, rfl⟩ := List.mem_map.mp hr
    simp [annotateRare]

/-- C4 — witness: with three concrete observations (far, near-tie-1,
near-tie-2), the two tied near records stay in upstream order in the sorted
output. -/
theorem C4_witness :
    List.Sublist [annotateRare dkLat rareObsNear1, annotateRare dkLat rareObsNear2]
      (rareBirdsProcess dkLat [rareObsFar, rareObsNear1, rareObsNear2]) := by
  refine (C4_rare_birds_sorted_stable dkLat [rareObsFar, rareObsNear1, rareObsNear2]).2.2.1
    (annotateRare dkLat rareObsNear1) (annotateRare dkLat rareObsNear2) ?_ ?_
  · show List.Sublist _ [annotateRare dkLat rareObsFar, annotateRare dkLat rareObsNear1,
      annotateRare dkLat rareObsNear2]
    exact (List.Sublist.refl _).cons _
  · norm_num [rareKey, annotateRare, dkLat, rareObsNear1, rareObsNear2]

/-- C5 — confirmed.  Outbound geo requests always carry
`dist = min(distance_km, 50)` and observation requests carry
`back = min(back_days, 30)`; with `distance_km > 50` the request carries
exactly 50 and with `back_days > 30` exactly 30; `distance_km = 80` requests
radius 50; and the clamping is silent: with a successful upstream response
the tools still return an `ok` result. -/
theorem C5_radius_and_back_clamped (lat lng : ℚ) (d b m : ℤ) (mr : ℕ)
    (hs : List EBirdHotspot) (os : List EBirdObs) (dk : EBirdObs → ℚ) :
    (hotspotGeoRequest lat lng d).dist = min d 50 ∧
    (50 < d → (hotspotGeoRequest lat lng d).dist = 50) ∧
    (notableGeoRequest lat lng d b).dist = min d 50 ∧
    (50 < d → (notableGeoRequest lat lng d b).dist = 50) ∧
    (recentObsRequest b m).back = min b 30 ∧
    (30 < b → (recentObsRequest b m).back = 30) ∧
    (notableObsRequest b m).back = min b 30 ∧
    (30 < b → (notableObsRequest b m).back = 30) ∧
    (speciesObsRequest b m).back = min b 30 ∧
    (30 < b → (speciesObsRequest b m).back = 30) ∧
    (notableGeoRequest lat lng d b).back = min b 30 ∧
    (30 < b → (notableGeoRequest lat lng d b).back = 30) ∧
    (hotspotGeoRequest lat lng 80).dist = 50 ∧
    get_nearby_hotspots mr (.ok hs) = .ok ((hs.take mr).map formatHotspot) ∧
    get_rare_birds_nearby dk (.ok os) = .ok (rareBirdsProcess dk os) := by
  refine ⟨rfl, fun hgt => ?_, rfl, fun hgt => ?_, rfl, fun hgt => ?_, rfl, fun hgt => ?_,
      rfl, fun hgt => ?_, rfl, fun hgt => ?_, ?_, rfl, rfl⟩ <;>
    simp [hotspotGeoRequest, notableGeoRequest, recentObsRequest, notableObsRequest,
      speciesObsRequest] <;> omega

/-- C5 — witness: a hotspot request for 80 km carries radius 50, a recent
observation request for 45 days back carries 30. -/
theorem C5_witness :
    (hotspotGeoRequest 0 0 80).dist = 50 ∧ (recentObsRequest 45 100).back = 30 := by
  have h := C5_radius_and_back_clamped 0 0 80 45 100 20 [] [] dkLat
  exact ⟨h.2.1 (by norm_num), h.2.2.2.2.2.1 (by norm_num)⟩

/-- C7 — confirmed.  For a non-empty search query, `get_taxonomy` returns
exactly the case-insensitive name matches capped at 20 (so the general
50-item cap is void), and every returned record's common or scientific name
contains the query case-insensitively. -/
theorem C7_taxonomy_query_filter (tax : List TaxEntry) (q : String) (hq : q ≠ "") :
    taxonomyProcess (some q) tax =
      ((tax.filter (fun t => decide (nameMatches q t))).take 20).map formatTax ∧
    (taxonomyProcess (some q) tax).length ≤ 20 ∧
    ∀ r ∈ taxonomyProcess (some q) tax,
      lowerStr q <:+: lowerStr r.common_name ∨
      lowerStr q <:+: lowerStr r.scientific_name := by
  have h20 : applyQuery (some q) tax =
      (tax.filter (fun t => decide (nameMatches q t))).take 20 := by
    simp [applyQuery, hq]
  have hcap : taxonomyProcess (some q) tax =
      ((tax.filter (fun t => decide (nameMatches q t))).take 20).map formatTax := by
    rw [taxonomyProcess, h20, List.take_take]
    norm_num
  refine ⟨hcap, ?_, ?_⟩
  · rw [hcap, List.length_map]
    exact List.length_take_le 20 _
  · intro r hr
    rw [hcap] at hr
    obtain ⟨t, ht, rfl⟩ := List.mem_map.mp hr
    have hmem : t ∈ tax.filter (fun t => decide (nameMatches q t)) :=
      List.mem_of_mem_take ht
    have hp := List.of_mem_filter hmem
    simp only [decide_eq_true_eq] at hp
    simpa [nameMatches, formatTax] using hp

/-- C7 — witness: searching "cardinal" over a two-entry taxonomy keeps only
the Northern Cardinal entry. -/
theorem C7_witness :
    taxonomyProcess (some "cardinal") [taxCardinal, taxBlueJay] = [formatTax taxCardinal] ∧
    (taxonomyProcess (some "cardinal") [taxCardinal, taxBlueJay]).length ≤ 20 := by
  have hq : ("cardinal" : String) ≠ "" := by decide
  have h := C7_taxonomy_query_filter [taxCardinal, taxBlueJay] "cardinal" hq
  refine ⟨?_, h.2.1⟩
  rw [h.1]
  have hf : [taxCardinal, taxBlueJay].filter (fun t => decide (nameMatches "cardinal" t)) =
      [taxCardinal] := by decide
  rw [hf]
  rfl

/-! ### Claim C6 — every operation converts exceptions to `Error ...` strings -/

lemma errorHead (s e : List Char) (h : "Error".data <+: s) : "Error".data <+: s ++ e :=
  h.trans (List.prefix_append s e)

/-- A forecast hourly payload whose `temperature_2m` key is present but
empty: indexing it raises `IndexError`. -/
def forecastHourlyBad : WForecastHourly :=
  { temperature_2m := some [], precipitation_probability := none,
    wind_speed_10m := none, cloud_cover := none, visibility := none }

def forecastDailyNone : WForecastDaily :=
  { time := none, sunrise := none, sunset := none,
    precipitation_sum := none, wind_speed_10m_max := none }

/-- C6 — confirmed.  Every operation of the eBird client and of the weather
client maps an exception (of the outbound call, or — for the forecast — of
response processing) to an error-string result beginning with "Error", and
being a total function it never propagates an exception. -/
theorem C6_all_tools_catch_and_stringify (e : List Char) (mr : ℕ) (rc hid : String)
    (q : Option String) (dk : EBirdObs → ℚ) :
    (get_recent_observations (.error e) =
      .err ("Error fetching observations: ".data ++ e) ∧
      "Error".data <+: "Error fetching observations: ".data ++ e) ∧
    (get_notable_observations (.error e) =
      .err ("Error fetching notable observations: ".data ++ e) ∧
      "Error".data <+: "Error fetching notable observations: ".data ++ e) ∧
    (get_nearby_hotspots mr (.error e) =
      .err ("Error fetching hotspots: ".data ++ e) ∧
      "Error".data <+: "Error fetching hotspots: ".data ++ e) ∧
    (get_species_observations (.error e) =
      .err ("Error fetching species observations: ".data ++ e) ∧
      "Error".data <+: "Error fetching species observations: ".data ++ e) ∧
    (get_region_info rc (.error e) =
      .err ("Error fetching region info: ".data ++ e) ∧
      "Error".data <+: "Error fetching region info: ".data ++ e) ∧
    (get_hotspot_info hid (.error e) =
      .err ("Error fetching hotspot info: ".data ++ e) ∧
      "Error".data <+: "Error fetching hotspot info: ".data ++ e) ∧
    (get_taxonomy q (.error e) =
      .err ("Error fetching taxonomy: ".data ++ e) ∧
      "Error".data <+: "Error fetching taxonomy: ".data ++ e) ∧
    (get_rare_birds_nearby dk (.error e) =
      .err ("Error fetching rare birds: ".data ++ e) ∧
      "Error".data <+: "Error fetching rare birds: ".data ++ e) ∧
    (get_weather_forecast (.error e) =
      .err ("Error fetching weather: ".data ++ e) ∧
      "Error".data <+: "Error fetching weather: ".data ++ e) ∧
    (get_birding_conditions_tool (.error e) =
      .err ("Error analyzing birding conditions: ".data ++ e) ∧
      "Error".data <+: "Error analyzing birding conditions: ".data ++ e) ∧
    (∀ (resp : Except (List Char) (WForecastHourly × WForecastDaily × Option String))
      (m : List Char), get_weather_forecast resp = .err m → "Error".data <+: m) := by
  refine ⟨⟨rfl, errorHead _ _ (by decide)⟩, ⟨rfl, errorHead _ _ (by decide)⟩,
    ⟨rfl, errorHead _ _ (by decide)⟩, ⟨rfl, errorHead _ _ (by decide)⟩,
    ⟨rfl, errorHead _ _ (by decide)⟩, ⟨rfl, errorHead _ _ (by decide)⟩,
    ⟨rfl, errorHead _ _ (by decide)⟩, ⟨rfl, errorHead _ _ (by decide)⟩,
    ⟨rfl, errorHead _ _ (by decide)⟩, ⟨rfl, errorHead _ _ (by decide)⟩, ?_⟩
  intro resp m hm
  unfold get_weather_forecast at hm
  rcases hre : resp.bind (fun r => forecastProcess r.1 r.2.1 r.2.2) with e2 | out <;>
    rw [hre] at hm
  · cases hm
    exact errorHead _ _ (by decide)
  · cases hm

/-- C6 — witness: a present-but-empty `temperature_2m` list makes the
forecast processing raise `IndexError`, and the tool returns the
corresponding "Error fetching weather: ..." string. -/
theorem C6_witness :
    "Error".data <+: "Error fetching weather: ".data ++ "list index out of range".data := by
  refine (C6_all_tools_catch_and_stringify [] 0 "" "" none dkLat).2.2.2.2.2.2.2.2.2.2
    (.ok (forecastHourlyBad, forecastDailyNone, none)) _ rfl

/-! ## Structured-output endpoints (`backend/app/main.py`)

`find_birding_tours` (lines 929–978) and `get_area_based_targets`
(lines 1304–1394) both run a specialist agent and then extract a JSON object
from its free-text reply.  The embedding models:
* `str.strip()` and the two extraction regexes at the character-list level;
* `json.loads` by an executable recursive-descent parser for the JSON subset
  the handlers exchange (objects, arrays, strings with `\"`/`\\` escapes,
  integers, `true`/`false`/`null`); float literals and the remaining escape
  forms are not modelled, and `json.loads` fails exactly where the model
  parser fails on that subset;
* FastAPI result vs `HTTPException` by `HandlerResult`. -/

/-- Result of an endpoint handler: a payload, or an `HTTPException`. -/
inductive HandlerResult (α : Type) where
  | ok (val : α)
  | httpError (status : ℕ) (detail : List Char)

/-- A parsed JSON value.  Object members keep source order; as in Python,
a duplicated key is resolved by its last occurrence (see `jGetM`). -/
inductive JVal where
  | null
  | bool (b : Bool)
  | num (n : ℤ)
  | str (s : List Char)
  | arr (elems : List JVal)
  | obj (members : List (List Char × JVal))

/-- Python `str.strip()` (left side). -/
def stripLeft (s : List Char) : List Char := s.dropWhile Char.isWhitespace

/-- Python `str.strip()` (right side). -/
def stripRight (s : List Char) : List Char := (s.reverse.dropWhile Char.isWhitespace).reverse

/-- Python `str.strip()`. -/
def pyStrip (s : List Char) : List Char := stripRight (stripLeft s)

/-- `re.search(r'\x7b[\s\S]*\x7d', text)` (main.py line 953): the greedy
match runs from the first opening brace to the last closing brace, and exists
iff some closing brace follows the first opening brace. -/
def braceSpan (s : List Char) : Option (List Char) :=
  let t := s.dropWhile (fun c => c != '{')
  let r := (t.reverse.dropWhile (fun c => c != '}')).reverse
  if r.isEmpty then none else some r

def fenceMarker : List Char := "```".data

/-- Suffix immediately after the first occurrence of `pat`, if any. -/
def afterFirst (pat : List Char) : List Char → Option (List Char)
  | [] => if pat.isEmpty then some [] else none
  | c :: cs =>
      if pat.isPrefixOf (c :: cs) then some ((c :: cs).drop pat.length)
      else afterFirst pat cs

/-- Text before the first occurrence of `pat`, if any. -/
def beforeFirst (pat : List Char) : List Char → Option (List Char)
  | [] => if pat.isEmpty then some [] else none
  | c :: cs =>
      if pat.isPrefixOf (c :: cs) then some []
      else (beforeFirst pat cs).map (c :: ·)

/-- `re.search(r'```(?:json)?\s*([\s\S]*?)\s*```', text).group(1)`
(main.py line 1372): content of the first fenced block — after the opening
fence, an optional literal `json`, and leading whitespace; the lazy group
ends (trailing whitespace trimmed) at the next fence. -/
def extractFence (s : List Char) : Option (List Char) :=
  (afterFirst fenceMarker s).bind fun rest =>
    let rest1 := if "json".data.isPrefixOf rest then rest.drop 4 else rest
    let rest2 := rest1.dropWhile Char.isWhitespace
    (beforeFirst fenceMarker rest2).map stripRight

/-! ### A `json.loads` model -/

def jsonWs (s : List Char) : List Char := s.dropWhile Char.isWhitespace

/-- JSON string body after the opening quote; only the `\"` and `\\` escapes
are modelled. -/
def parseStringBody : List Char → Option (List Char × List Char)
  | [] => none
  | c :: cs =>
      if c = '"' then some ([], cs)
      else if c = '\\' then
        match cs with
        | [] => none
        | d :: ds =>
            if d = '"' ∨ d = '\\' then
              match parseStringBody ds with
              | some (r, rest) => some (d :: r, rest)
              | none => none
            else none
      else
        match parseStringBody cs with
        | some (r, rest) => some (c :: r, rest)
        | none => none

/-- Decimal digit run, accumulating into `acc`. -/
def digitsToNat (acc : ℕ) : List Char → (ℕ × List Char)
  | [] => (acc, [])
  | c :: cs => if c.isDigit then digitsToNat (acc * 10 + (c.toNat - 48)) cs else (acc, c :: cs)

/-- `[v1, v2, ...]` elements after the opening bracket (first fuel argument
bounds the number of elements; callers pass the remaining input length). -/
def parseElems (pv : List Char → Option (JVal × List Char)) :
    ℕ → List Char → Option (List JVal × List Char)
  | 0, _ => none
  | n + 1, s =>
      match pv s with
      | none => none
      | some (v, rest) =>
          match jsonWs rest with
          | ',' :: rest2 =>
              match parseElems pv n rest2 with
              | some (vs, r) => some (v :: vs, r)
              | none => none
          | ']' :: rest2 => some ([v], rest2)
          | _ => none

/-- `"k": v` members after the opening brace. -/
def parseMembers (pv : List Char → Option (JVal × List Char)) :
    ℕ → List Char → Option (List (List Char × JVal) × List Char)
  | 0, _ => none
  | n + 1, s =>
      match jsonWs s with
      | '"' :: cs =>
          match parseStringBody cs with
          | none => none
          | some (k, rest) =>
              match jsonWs rest with
              | ':' :: rest2 =>
                  match pv rest2 with
                  | none => none
                  | some (v, rest3) =>
                      match jsonWs rest3 with
                      | ',' :: rest4 =>
                          match parseMembers pv n rest4 with
                          | some (ms, r) => some ((k, v) :: ms, r)
                          | none => none
                      | '}' :: rest4 => some ([(k, v)], rest4)
                      | _ => none
              | _ => none
      | _ => none

/-- Recursive-descent JSON value parser; the fuel bounds the nesting depth. -/
def parseJVal : ℕ → List Char → Option (JVal × List Char)
  | 0, _ => none
  | fuel + 1, s =>
      match jsonWs s with
      | [] => none
      | c :: cs =>
          if c = '{' then
            match jsonWs cs with
            | '}' :: r => some (.obj [], r)
            | s2 =>
                match parseMembers (parseJVal fuel) (s2.length + 1) s2 with
                | some (ms, r) => some (.obj ms, r)
                | none => none
          else if c = '[' then
            match jsonWs cs with
            | ']' :: r => some (.arr [], r)
            | s2 =>
                match parseElems (parseJVal fuel) (s2.length + 1) s2 with
                | some (vs, r) => some (.arr vs, r)
                | none => none
          else if c = '"' then
            match parseStringBody cs with
            | some (str, r) => some (.str str, r)
            | none => none
          else if c = 't' then
            if "rue".data.isPrefixOf cs then some (.bool true, cs.drop 3) else none
          else if c = 'f' then
            if "alse".data.isPrefixOf cs then some (.bool false, cs.drop 4) else none
          else if c = 'n' then
            if "ull".data.isPrefixOf cs then some (.null, cs.drop 3) else none
          else if c = '-' then
            match cs with
            | d :: _ =>
                if d.isDigit then
                  match digitsToNat 0 cs with
                  | (n, r) => some (.num (-(n : ℤ)), r)
                else none
            | [] => none
          else if c.isDigit then
            match digitsToNat (c.toNat - 48) cs with
            | (n, r) => some (.num (n : ℤ), r)
          else none

/-- `json.loads`: a single value, with no trailing non-whitespace. -/
def json_loads (s : List Char) : Option JVal :=
  match parseJVal (s.length + 1) s with
  | some (v, rest) => if (jsonWs rest).isEmpty then some v else none
  | none => none

/-- `dict.get(k)` on parsed members; the last duplicate key wins, as in a
dict built by `json.loads`. -/
def jGetM (ms : List (List Char × JVal)) (k : List Char) : Option JVal :=
  (ms.reverse.find? (fun m => m.1 == k)).map (·.2)

/-- Python truthiness of a parsed JSON value. -/
def truthy : JVal → Bool
  | .null => false
  | .bool b => b
  | .num n => n != 0
  | .str s => !s.isEmpty
  | .arr l => !l.isEmpty
  | .obj m => !m.isEmpty

/-- `[:n]` truncation of a display value when it is a string (the `str(...)`
conversion applied by the handler to a non-string value is not modelled —
no claim inspects the rendered card text). -/
def jTrunc (n : ℕ) : JVal → JVal
  | .str s => .str (s.take n)
  | v => v

/-- `.strip()` of a display value when it is a string. -/
def jStrip : JVal → JVal
  | .str s => .str (pyStrip s)
  | v => v

/-! ### `GET /api/community/tours` — `find_birding_tours` (main.py 929–978) -/

structure TourCard where
  title : JVal
  location : JVal
  url : JVal
  description : Option JVal

structure ToursPayload where
  tours : List TourCard

/-- One entry of `tours[:10]` (main.py lines 960–967): kept iff it is a dict
with truthy `title` and truthy `url`. -/
def validTour (t : JVal) : Option TourCard :=
  match t with
  | .obj ms =>
      let title := (jGetM ms "title".data).getD .null
      let url := (jGetM ms "url".data).getD .null
      if truthy title && truthy url then
        some { title := jTrunc 200 title
               location := jTrunc 200 ((jGetM ms "location".data).getD (.str []))
               url := jStrip url
               description :=
                 match jGetM ms "description".data with
                 | some d => if truthy d then some (jTrunc 300 d) else none
                 | none => none }
      else none
  | _ => none

def validTours (ts : List JVal) : List TourCard := ts.filterMap validTour

/-- The JSON-extraction tail of `find_birding_tours` (main.py lines 951–978),
as a function of the agent's reply text.  `json.JSONDecodeError` is caught
and falls through to the `{"tours": []}` fallback; a well-formed but
non-object/array shape that makes `tours[:10]` or `.get` raise escapes the
inner `except` and becomes the outer HTTP 500. -/
def toursPipeline (response_text : List Char) : HandlerResult ToursPayload :=
  let text := pyStrip response_text
  match braceSpan text with
  | none => .ok { tours := [] }
  | some span =>
      match json_loads span with
      | none => .ok { tours := [] }
      | some data =>
          match data with
          | .obj ms =>
              match (jGetM ms "tours".data).getD (.arr []) with
              | .arr ts => .ok { tours := validTours (ts.take 10) }
              | .str _ => .ok { tours := [] }
              | _ => .httpError 500 "Agent error: unsliceable tours value".data
          | _ => .httpError 500 "Agent error: attribute get on non-dict".data

/-! ### `POST /api/lifelist/area-based-targets` — `get_area_based_targets`
(main.py 1304–1394) -/

structure AreaBasedTargetsRequest where
  species : List String
  lat : Option ℚ
  longitude : Option ℚ
  num_targets : ℕ

structure AreaPayload where
  birds : JVal
  recommendations : Option (List Char)

/-- `x[:n]` on the extracted `birds` value: lists and strings slice,
anything else raises `TypeError`. -/
def jSlice (v : JVal) (n : ℕ) : Option JVal :=
  match v with
  | .arr xs => some (.arr (xs.take n))
  | .str s => some (.str (s.take n))
  | _ => none

/-- The fence-processed text that `get_area_based_targets` feeds to
`json.loads` (main.py lines 1370–1374): the stripped reply, with the content
of a fenced code block substituted (and re-stripped) when one is present. -/
def areaText (response_text : List Char) : List Char :=
  let t0 := pyStrip response_text
  match extractFence t0 with
  | some inner => pyStrip inner
  | none => t0

/-- The JSON-extraction tail of `get_area_based_targets` (main.py lines
1367–1392): on `json.JSONDecodeError` the handler returns the raw reply text
(`recommendations`) with an empty `birds` list. -/
def areaPipeline (response_text : List Char) (num_targets : ℕ) : HandlerResult AreaPayload :=
  match json_loads (areaText response_text) with
  | some data =>
      match data with
      | .obj ms =>
          match jSlice ((jGetM ms "birds".data).getD (.arr [])) num_targets with
          | some b => .ok { birds := b, recommendations := none }
          | none => .httpError 500 "Agent error: unsliceable birds value".data
      | _ => .httpError 500 "Agent error: attribute get on non-dict".data
  | none => .ok { birds := .arr [], recommendations := some response_text }

structure AreaResponse where
  birds : JVal
  recommendations : Option (List Char)
  species_analyzed : ℕ
  date : List Char

/-- The prompt built at main.py lines 1321–1361: the joined sample of at most
30 species (with an "(and N more)" suffix) followed by the fixed instruction
text, which is irrelevant to every claim and elided. -/
def areaPrompt (currentDate : List Char) (req : AreaBasedTargetsRequest) : List Char :=
  let listing := List.intercalate ", ".data ((req.species.take 30).map String.data)
  let listing :=
    if 30 < req.species.length then
      listing ++ " (and ".data ++ (toString (req.species.length - 30)).data ++ " more)".data
    else listing
  listing ++ currentDate

/-- `get_area_based_targets` (main.py lines 1304–1394).  `agentRun` stands
for `agent.run`; its `.error` case is an exception, turned into the outer
HTTP 500.  An empty species list is rejected with HTTP 400 before the agent
is consulted. -/
def get_area_based_targets (currentDate : List Char)
    (agentRun : List Char → Except (List Char) (List Char))
    (req : AreaBasedTargetsRequest) : HandlerResult AreaResponse :=
  if req.species.isEmpty then
    .httpError 400 "At least one species is required. Add birds to your life list first.".data
  else
    match agentRun (areaPrompt currentDate req) with
    | .error e => .httpError 500 ("Agent error: ".data ++ e)
    | .ok response_text =>
        match areaPipeline response_text req.num_targets with
        | .ok p => .ok { birds := p.birds, recommendations := p.recommendations,
                         species_analyzed := req.species.length, date := currentDate }
        | .httpError c dmsg => .httpError c dmsg

/-! ### Claim C10 -/

/-- C10 — confirmed.  With an empty species list the handler answers
HTTP 400, the detail carries the actionable "Add birds to your life list
first." message, and the agent is never consulted: the result does not
depend on the agent function at all. -/
theorem C10_empty_species_rejected_before_agent (currentDate : List Char)
    (f g : List Char → Except (List Char) (List Char)) (req : AreaBasedTargetsRequest)
    (hreq : req.species = []) :
    get_area_based_targets currentDate f req =
      .httpError 400
        "At least one species is required. Add birds to your life list first.".data ∧
    get_area_based_targets currentDate f req = get_area_based_targets currentDate g req ∧
    "Add birds to your life list first.".data <:+:
      "At least one species is required. Add birds to your life list first.".data := by
  refine ⟨?_, ?_, by decide⟩ <;> simp [get_area_based_targets, hreq]

/-- C10 — witness: the concrete empty request is rejected with 400 for an
arbitrary concrete agent. -/
theorem C10_witness :
    get_area_based_targets [] (fun _ => .ok []) ⟨[], none, none, 5⟩ =
      .httpError 400
        "At least one species is required. Add birds to your life list first.".data :=
  (C10_empty_species_rejected_before_agent [] (fun _ => .ok [])
    (fun _ => .error []) ⟨[], none, none, 5⟩ rfl).1

/-! ### Claim C3 -/

/-- A reply that is exactly the JSON object. -/
def plainJson : List Char := "\x7b\"birds\": [\"x\"]\x7d".data

/-- The same JSON wrapped in a fenced code block. -/
def fenceWrap (j : List Char) : List Char := "```json\n".data ++ j ++ "\n```".data

/-- The same JSON surrounded by prose. -/
def proseReply : List Char := "Sure! Here are the birds: ".data ++ plainJson ++ " Enjoy!".data

/-- C3 — counterexample.  The claim says both structured-output endpoints
extract the same object from a plain, fenced, or prose-surrounded reply.
`get_area_based_targets` only strips a fenced block before `json.loads`, so
for the prose-surrounded reply the parse fails and the handler returns the
raw-text fallback (empty `birds`), not the object it extracts from the plain
and fenced forms. -/
theorem C3_area_prose_counterexample :
    json_loads plainJson = some (.obj [("birds".data, .arr [.str "x".data])]) ∧
    areaPipeline plainJson 5 =
      .ok { birds := .arr [.str "x".data], recommendations := none } ∧
    areaPipeline (fenceWrap plainJson) 5 =
      .ok { birds := .arr [.str "x".data], recommendations := none } ∧
    areaPipeline proseReply 5 =
      .ok { birds := .arr [], recommendations := some proseReply } ∧
    areaPipeline proseReply 5 ≠ areaPipeline plainJson 5 := by
  refine ⟨rfl, rfl, rfl, rfl, ?_⟩
  intro hcontra
  rw [show areaPipeline proseReply 5 =
        .ok { birds := JVal.arr [], recommendations := some proseReply } from rfl,
      show areaPipeline plainJson 5 =
        .ok { birds := JVal.arr [JVal.str "x".data], recommendations := none } from rfl]
    at hcontra
  simp at hcontra

/-! #### Text-level lemmas for the amended C3 -/

/-- The backtick character. -/
def btick : Char := Char.ofNat 96

/-- Text with no brace characters, such as surrounding prose. -/
def braceFree (s : List Char) : Prop := ∀ c ∈ s, c ≠ '{' ∧ c ≠ '}'

instance (s : List Char) : Decidable (braceFree s) := by
  unfold braceFree; infer_instance

lemma dropWhile_append_all {pred : Char → Bool} (p rest : List Char)
    (h : ∀ c ∈ p, pred c = true) :
    (p ++ rest).dropWhile pred = rest.dropWhile pred := by
  induction p with
  | nil => rfl
  | cons a as ih =>
      have ha : pred a = true := h a (List.mem_cons_self a as)
      simpa [List.dropWhile_cons, ha] using ih (fun c hc => h c (List.mem_cons_of_mem a hc))

lemma dropWhile_head_false {pred : Char → Bool} (l : List Char) (c : Char)
    (hc : l.head? = some c) (hf : pred c = false) : l.dropWhile pred = l := by
  cases l with
  | nil => rfl
  | cons a as =>
      obtain rfl : a = c := by simpa using hc
      simp [List.dropWhile_cons, hf]

lemma dropWhile_append_head {pred : Char → Bool} (p rest : List Char) (c : Char)
    (hc : rest.head? = some c) (hf : pred c = false) :
    (p ++ rest).dropWhile pred = p.dropWhile pred ++ rest := by
  induction p with
  | nil => simpa using dropWhile_head_false rest c hc hf
  | cons a as ih =>
      by_cases hpa : pred a = true
      · simp [List.dropWhile_cons, hpa, ih]
      · simp [List.dropWhile_cons, hpa]

lemma head?_append_left {l r : List Char} {c : Char} (h : l.head? = some c) :
    (l ++ r).head? = some c := by
  cases l with
  | nil => simp at h
  | cons a as => simpa using h

lemma getLast?_append_left {l r : List Char} {c : Char} (h : l.getLast? = some c) :
    (r ++ l).getLast? = some c := by
  rw [List.getLast?_append, h]
  rfl

/-- The greedy `\x7b[\s\S]*\x7d` match on prose-surrounded text is exactly
the embedded object. -/
lemma braceSpan_concat (p j q : List Char) (hp : braceFree p) (hq : braceFree q)
    (hh : j.head? = some '{') (hl : j.getLast? = some '}') :
    braceSpan (p ++ (j ++ q)) = some j := by
  have hne : j ≠ [] := by cases j <;> simp_all
  have h1 : (p ++ (j ++ q)).dropWhile (fun c => c != '{') = j ++ q := by
    rw [dropWhile_append_all p _ (fun c hc => by simpa using (hp c hc).1)]
    exact dropWhile_head_false _ '{' (head?_append_left hh) (by simp)
  have h2 : ((j ++ q).reverse).dropWhile (fun c => c != '}') = j.reverse := by
    rw [List.reverse_append]
    rw [dropWhile_append_all q.reverse _
      (fun c hc => by simpa using (hq c (List.mem_reverse.mp hc)).2)]
    exact dropWhile_head_false _ '}' (by rw [List.head?_reverse]; exact hl) (by simp)
  simp only [braceSpan, h1, h2, List.reverse_reverse]
  simp [hne]

lemma stripLeft_append (p rest : List Char) (c : Char)
    (hc : rest.head? = some c) (hw : c.isWhitespace = false) :
    stripLeft (p ++ rest) = stripLeft p ++ rest :=
  dropWhile_append_head p rest c hc hw

lemma stripRight_append (x q : List Char) (c : Char)
    (hc : x.getLast? = some c) (hw : c.isWhitespace = false) :
    stripRight (x ++ q) = x ++ stripRight q := by
  unfold stripRight
  rw [List.reverse_append,
    dropWhile_append_head q.reverse x.reverse c (by rw [List.head?_reverse]; exact hc) hw,
    List.reverse_append, List.reverse_reverse]

/-- Stripping prose-surrounded text strips only inside the prose. -/
lemma pyStrip_concat (p j q : List Char)
    (hh : j.head? = some '{') (hl : j.getLast? = some '}') :
    pyStrip (p ++ (j ++ q)) = stripLeft p ++ (j ++ stripRight q) := by
  have hne : j ≠ [] := by cases j <;> simp_all
  unfold pyStrip
  rw [stripLeft_append p (j ++ q) '{' (head?_append_left hh) (by decide)]
  rw [show stripLeft p ++ (j ++ q) = (stripLeft p ++ j) ++ q from by simp]
  rw [stripRight_append (stripLeft p ++ j) q '}' (getLast?_append_left hl) (by decide)]
  simp

lemma pyStrip_of_braces (j : List Char)
    (hh : j.head? = some '{') (hl : j.getLast? = some '}') : pyStrip j = j := by
  unfold pyStrip stripLeft stripRight
  rw [dropWhile_head_false j '{' hh (by decide)]
  rw [dropWhile_head_false j.reverse '}' (by rw [List.head?_reverse]; exact hl) (by decide)]
  exact List.reverse_reverse j

lemma braceFree_stripLeft (p : List Char) (hp : braceFree p) : braceFree (stripLeft p) :=
  fun c hc => hp c ((List.dropWhile_sublist _).subset hc)

lemma braceFree_stripRight (q : List Char) (hq : braceFree q) : braceFree (stripRight q) :=
  fun c hc => hq c (List.mem_reverse.mp ((List.dropWhile_sublist _).subset
    (List.mem_reverse.mp (by simpa [stripRight] using hc))))

/-- The tours handler extracts the same span from prose-surrounded text as
from the bare object. -/
lemma toursPipeline_concat (p j q : List Char) (hp : braceFree p) (hq : braceFree q)
    (hh : j.head? = some '{') (hl : j.getLast? = some '}') :
    toursPipeline (p ++ (j ++ q)) = toursPipeline j := by
  have hspan1 : braceSpan (pyStrip (p ++ (j ++ q))) = some j := by
    rw [pyStrip_concat p j q hh hl]
    exact braceSpan_concat _ _ _ (braceFree_stripLeft p hp) (braceFree_stripRight q hq) hh hl
  have hspan2 : braceSpan (pyStrip j) = some j := by
    rw [pyStrip_of_braces j hh hl]
    have := braceSpan_concat [] j [] (by intro c hc; cases hc) (by intro c hc; cases hc) hh hl
    simpa using this
  simp only [toursPipeline, hspan1, hspan2]

lemma fenceMarker_eq : fenceMarker = btick :: btick :: btick :: [] := rfl

lemma isPrefixOf_fence_cons (c : Char) (cs : List Char) (hc : c ≠ btick) :
    fenceMarker.isPrefixOf (c :: cs) = false := by
  rw [fenceMarker_eq, List.isPrefixOf_cons₂]
  simp [beq_eq_false_iff_ne, Ne.symm hc]

/-- Text without backticks has no fence. -/
lemma afterFirst_fence_none (s : List Char) (h : btick ∉ s) :
    afterFirst fenceMarker s = none := by
  induction s with
  | nil => rfl
  | cons c cs ih =>
      have hc : c ≠ btick := fun hcc => h (hcc ▸ List.mem_cons_self c cs)
      rw [afterFirst, if_neg (by simp [isPrefixOf_fence_cons c cs hc])]
      exact ih (fun hm => h (List.mem_cons_of_mem c hm))

lemma extractFence_none (s : List Char) (h : btick ∉ s) : extractFence s = none := by
  simp [extractFence, afterFirst_fence_none s h]

/-- Scanning backtick-free content finds the closing fence right after it
(the newline before the fence is part of the pre-close whitespace). -/
lemma beforeFirst_fence_close (j : List Char) (h : btick ∉ j) :
    beforeFirst fenceMarker (j ++ ('\n' :: fenceMarker)) = some (j ++ ['\n']) := by
  induction j with
  | nil => rfl
  | cons c cs ih =>
      have hc : c ≠ btick := fun hcc => h (hcc ▸ List.mem_cons_self c cs)
      rw [List.cons_append, beforeFirst,
        if_neg (by simp [isPrefixOf_fence_cons c _ hc]),
        ih (fun hm => h (List.mem_cons_of_mem c hm))]
      rfl

/-- The fence regex on a fenced reply yields exactly the embedded object. -/
lemma extractFence_fenceWrap (j : List Char) (hb : btick ∉ j)
    (hh : j.head? = some '{') (hl : j.getLast? = some '}') :
    extractFence (fenceWrap j) = some j := by
  have hne : j ≠ [] := by cases j <;> simp_all
  have hexp : fenceWrap j =
      btick :: btick :: btick :: ("json\n".data ++ (j ++ "\n```".data)) := rfl
  have hpre : fenceMarker.isPrefixOf (fenceWrap j) = true := by
    rw [hexp, fenceMarker_eq]
    simp [List.isPrefixOf_cons₂, List.isPrefixOf_nil_left]
  have h1 : afterFirst fenceMarker (fenceWrap j) =
      some ("json\n".data ++ (j ++ "\n```".data)) := by
    rw [hexp] at hpre ⊢
    rw [afterFirst, if_pos hpre]
    rfl
  have h2 : "json".data.isPrefixOf ("json\n".data ++ (j ++ "\n```".data)) = true := by
    rw [show ("json\n".data ++ (j ++ "\n```".data)) =
      'j' :: 's' :: 'o' :: 'n' :: ('\n' :: (j ++ "\n```".data)) from rfl]
    simp [List.isPrefixOf_cons₂, List.isPrefixOf_nil_left]
  have h3 : ("json\n".data ++ (j ++ "\n```".data)).drop 4 = '\n' :: (j ++ "\n```".data) := rfl
  have h4 : ('\n' :: (j ++ "\n```".data)).dropWhile Char.isWhitespace = j ++ "\n```".data := by
    rw [List.dropWhile_cons]
    simp only [show ('\n').isWhitespace = true from rfl, if_true]
    exact dropWhile_head_false _ '{' (head?_append_left hh) (by decide)
  have h5 : beforeFirst fenceMarker (j ++ "\n```".data) = some (j ++ ['\n']) := by
    rw [show ("\n```".data : List Char) = '\n' :: fenceMarker from rfl]
    exact beforeFirst_fence_close j hb
  have h6 : stripRight (j ++ ['\n']) = j := by
    rw [stripRight_append j ['\n'] '}' hl (by decide),
      show stripRight ['\n'] = [] from by decide, List.append_nil]
  simp only [extractFence, h1, Option.bind, h2, if_true, h3, h4, h5, Option.map, h6]

/-- `areaText` on the bare object is the object itself. -/
lemma areaText_plain (j : List Char) (hb : btick ∉ j)
    (hh : j.head? = some '{') (hl : j.getLast? = some '}') : areaText j = j := by
  simp only [areaText, pyStrip_of_braces j hh hl, extractFence_none j hb]

/-- `areaText` on the fenced reply is the embedded object. -/
lemma areaText_fenced (j : List Char) (hb : btick ∉ j)
    (hh : j.head? = some '{') (hl : j.getLast? = some '}') :
    areaText (fenceWrap j) = j := by
  have hstrip : pyStrip (fenceWrap j) = fenceWrap j := by
    unfold pyStrip
    rw [show stripLeft (fenceWrap j) = fenceWrap j from
      dropWhile_head_false _ btick (by rfl) (by decide)]
    unfold stripRight
    rw [dropWhile_head_false (fenceWrap j).reverse btick ?hlast (by decide),
      List.reverse_reverse]
    case hlast =>
      rw [List.head?_reverse]
      exact getLast?_append_left (l := "\n```".data) (by rfl)
  simp only [areaText, hstrip, extractFence_fenceWrap j hb hh hl]
  exact pyStrip_of_braces j hh hl

/-- C3 — amended.  The tours endpoint extracts the same object from the bare
JSON, from the JSON surrounded by brace-free prose, and from the fenced
reply.  The area-based-targets endpoint extracts the same object from the
bare and the fenced reply, but when `json.loads` fails on its fence-processed
text — as for JSON surrounded by prose without a fence — it returns the
raw-text fallback.  On any malformed JSON both endpoints return their
fallback (tours: empty list; area: empty birds with the raw reply) rather
than raising. -/
theorem C3_amended_extraction_and_fallback (p q j t : List Char) (n : ℕ) (v : JVal)
    (hp : braceFree p) (hq : braceFree q)
    (hh : j.head? = some '{') (hl : j.getLast? = some '}') (hb : btick ∉ j)
    (hv : json_loads j = some v) :
    toursPipeline (p ++ (j ++ q)) = toursPipeline j ∧
    toursPipeline (fenceWrap j) = toursPipeline j ∧
    areaPipeline (fenceWrap j) n = areaPipeline j n ∧
    (braceSpan (pyStrip t) = none → toursPipeline t = .ok { tours := [] }) ∧
    (∀ sp, braceSpan (pyStrip t) = some sp → json_loads sp = none →
      toursPipeline t = .ok { tours := [] }) ∧
    (json_loads (areaText t) = none →
      areaPipeline t n = .ok { birds := .arr [], recommendations := some t }) := by
  refine ⟨toursPipeline_concat p j q hp hq hh hl, ?_, ?_, ?_, ?_, ?_⟩
  · rw [show fenceWrap j = "```json\n".data ++ (j ++ "\n```".data) from by
      simp [fenceWrap]]
    exact toursPipeline_concat _ j _ (by decide) (by decide) hh hl
  · simp only [areaPipeline, areaText_fenced j hb hh hl, areaText_plain j hb hh hl, hv]
  · intro hnone
    simp only [toursPipeline, hnone]
  · intro sp hsp hfail
    simp only [toursPipeline, hsp, hfail]
  · intro hfail
    simp only [areaPipeline, hfail]

/-- C3 amended — witness at the concrete reply forms: prose-surrounded and
fenced replies agree with the bare JSON on the tours pipeline, the fenced
reply agrees with the bare JSON on the area pipeline, and a reply with no
JSON at all takes the area raw-text fallback. -/
theorem C3_amended_witness :
    toursPipeline ("Sure! Here are the birds: ".data ++ (plainJson ++ " Enjoy!".data)) =
      toursPipeline plainJson ∧
    toursPipeline (fenceWrap plainJson) = toursPipeline plainJson ∧
    areaPipeline (fenceWrap plainJson) 5 = areaPipeline plainJson 5 ∧
    areaPipeline "no json here".data 5 =
      .ok { birds := .arr [], recommendations := some "no json here".data } := by
  have h := C3_amended_extraction_and_fallback "Sure! Here are the birds: ".data
    " Enjoy!".data plainJson "no json here".data 5
    (.obj [("birds".data, .arr [.str "x".data])])
    (by decide) (by decide) (by decide) (by decide) (by decide) rfl
  exact ⟨h.1, h.2.1, h.2.2.1, h.2.2.2.2.2 (by rfl)⟩

end Birdwatch
